/-
Formal model of the voice-detection service: the feature-extraction and
classification pipeline of lib/audio_processor.py and lib/voice_classifier.py,
plus the request-handling control flow of api/voice-detection.py.

Modelling conventions:
* Python floats are modelled as exact rationals; every arithmetic operation
  in the classifier (sums, products, divisions by constants, min/max, abs)
  is modelled exactly.
* Python's round(x, 2) is modelled as exact round-half-to-even on rationals.
* Raw audio bytes are lists of naturals (each entry a byte value 0..255, as
  produced by numpy.frombuffer with dtype uint8).
* The real-valued spectral and temporal feature computations on the sample
  array (FFT, log/exp, tanh, autocorrelation peak picking) are floating-point
  numerics; they are abstracted as an explicit function parameter named
  compute_features.  Every statement proved here is independent of it.
* numpy uint8 scalar arithmetic in parse_mp3_to_samples is modelled with its
  actual wrap-around semantics: a shift or bitwise operation whose operands
  are uint8 scalars (the Python int literals 0x7F, 21, 14, 7 all fit in
  uint8, so both legacy value-based promotion and NEP 50 keep the operation
  in uint8) produces a uint8 result, i.e. the value reduced mod 256; a shift
  count of at least 8 on a uint8 yields 0.
-/
import Mathlib

namespace Fraud

/-! Section: Thresholds (voice_classifier.py, THRESHOLDS) -/

/-- AI voices tend to have lower spectral flatness. -/
def spectral_flatness_low : ℚ := 15/100

/-- AI voices often have unnaturally high pitch stability. -/
def pitch_stability_high : ℚ := 7/10

/-- AI voices have less micro-variation. -/
def micro_variation_low : ℚ := 3/10

/-- AI voices have more consistent frame-to-frame energy. -/
def frame_variation_low : ℚ := 15/100

/-- AI voices often have lower zero-crossing rate variation. -/
def zcr_low : ℚ := 5/100

/-! Section: Explanation templates (voice_classifier.py, EXPLANATIONS) -/

def expl_ai_spectral : String :=
  "Synthetic spectral patterns detected - unnatural tonal quality typical of AI synthesis"

def expl_ai_stability : String :=
  "Unnaturally stable pitch and rhythm patterns inconsistent with human speech"

def expl_ai_smooth : String :=
  "Audio is too smooth at micro level - lacks natural human voice tremors and breathiness"

def expl_ai_consistent : String :=
  "Frame-to-frame energy is suspiciously consistent - typical of AI-generated audio"

def expl_ai_combined : String :=
  "Multiple AI indicators: synthetic spectrum, unnatural stability, and lack of micro-variation"

def expl_human_natural : String :=
  "Natural speech patterns with expected variation, micro-tremors, and spectral complexity"

def expl_human_variation : String :=
  "High frame-to-frame variation and spectral complexity consistent with human voice"

def expl_human_unstable : String :=
  "Natural pitch instability and breathing patterns detected"

def expl_uncertain : String :=
  "Audio characteristics are ambiguous - could be heavily processed human or high-quality AI"

/-- The fixed message catalog, in the order the EXPLANATIONS dict lists it. -/
def EXPLANATIONS_catalog : List String :=
  [expl_ai_spectral, expl_ai_stability, expl_ai_smooth, expl_ai_consistent,
   expl_ai_combined, expl_human_natural, expl_human_variation,
   expl_human_unstable, expl_uncertain]

/-! Section: Data model -/

/-- The feature dictionary returned by extract_audio_features (the numeric
audio features; the auxiliary byte_length entry is not read by the
classifier and is omitted). -/
structure AudioFeatures where
  zero_crossing_rate : ℚ
  amplitude_variance : ℚ
  spectral_centroid : ℚ
  spectral_flatness : ℚ
  spectral_rolloff : ℚ
  frame_variation : ℚ
  pitch_stability : ℚ
  micro_variation : ℚ
deriving DecidableEq

/-- The indicator flag dictionary built by calculate_ai_probability. -/
structure Indicators where
  low_flatness : Bool
  high_stability : Bool
  low_micro_var : Bool
  low_frame_var : Bool
  low_zcr : Bool
deriving DecidableEq

/-- The classification result dictionary returned by classify_voice. -/
structure ClassificationResult where
  classification : String
  confidenceScore : ℚ
  explanation : String
deriving DecidableEq

/-! Section: Rounding (Python round(x, 2) on the confidence) -/

/-- Round a rational to the nearest integer, ties to even (Python round). -/
def round_half_even (q : ℚ) : ℤ :=
  if q - ⌊q⌋ < 1/2 then ⌊q⌋
  else if 1/2 < q - ⌊q⌋ then ⌊q⌋ + 1
  else if ⌊q⌋ % 2 = 0 then ⌊q⌋ else ⌊q⌋ + 1

/-- Python round(x, 2): round to two decimal places, ties to even. -/
def round2 (q : ℚ) : ℚ := (round_half_even (q * 100) : ℚ) / 100

/-! Section: Per-signal partial scores (calculate_ai_probability, steps 1-5) -/

/-- Spectral flatness partial score (weight 0.25). -/
def flatness_score (flatness : ℚ) : ℚ :=
  if flatness < spectral_flatness_low then
    min 1 (1 - flatness / spectral_flatness_low)
  else
    max 0 (3/10 - flatness * (3/10))

/-- Pitch stability partial score (weight 0.25). -/
def stability_score (stability : ℚ) : ℚ :=
  if pitch_stability_high < stability then
    min 1 ((stability - pitch_stability_high) / (1 - pitch_stability_high))
  else 0

/-- Micro-variation partial score (weight 0.20). -/
def micro_score (micro_var : ℚ) : ℚ :=
  if micro_var < micro_variation_low then
    min 1 (1 - micro_var / micro_variation_low)
  else
    max 0 (3/10 - micro_var * (3/10))

/-- Frame variation partial score (weight 0.15). -/
def frame_score (frame_var : ℚ) : ℚ :=
  if frame_var < frame_variation_low then
    min 1 (1 - frame_var / frame_variation_low)
  else 0

/-- Zero-crossing rate partial score (weight 0.15): flat 0.6 below threshold. -/
def zcr_score (zcr : ℚ) : ℚ :=
  if zcr < zcr_low then 3/5 else 0

/-- The indicator flags set by calculate_ai_probability (all comparisons are
strict, exactly as in the source). -/
def indicators_of (f : AudioFeatures) : Indicators where
  low_flatness := decide (f.spectral_flatness < spectral_flatness_low)
  high_stability := decide (pitch_stability_high < f.pitch_stability)
  low_micro_var := decide (f.micro_variation < micro_variation_low)
  low_frame_var := decide (f.frame_variation < frame_variation_low)
  low_zcr := decide (f.zero_crossing_rate < zcr_low)

/-- Number of active indicators (sum over the indicator dict values). -/
def active_count (ind : Indicators) : Nat :=
  (if ind.low_flatness then 1 else 0) + (if ind.high_stability then 1 else 0) +
  (if ind.low_micro_var then 1 else 0) + (if ind.low_frame_var then 1 else 0) +
  (if ind.low_zcr then 1 else 0)

/-- The weighted average of the five partial scores before adjustment:
sum of score * weight over the five signals, divided by the total weight
(weights 0.25/0.25/0.20/0.15/0.15, exactly as the source sums them). -/
def weighted_score (f : AudioFeatures) : ℚ :=
  (flatness_score f.spectral_flatness * (25/100) +
   stability_score f.pitch_stability * (25/100) +
   micro_score f.micro_variation * (20/100) +
   frame_score f.frame_variation * (15/100) +
   zcr_score f.zero_crossing_rate * (15/100)) /
    (25/100 + 25/100 + 20/100 + 15/100 + 15/100)

/-- calculate_ai_probability: weighted average of the five partial scores,
then adjusted: at least 3 active indicators adds 0.15 clamped to 1, zero
active indicators subtracts 0.1 clamped to 0. -/
def calculate_ai_probability (f : AudioFeatures) : ℚ × Indicators :=
  (if 3 ≤ active_count (indicators_of f) then min 1 (weighted_score f + 15/100)
   else if active_count (indicators_of f) = 0 then max 0 (weighted_score f - 1/10)
   else weighted_score f,
   indicators_of f)

/-- generate_ai_explanation: priority order over the active indicators. -/
def generate_ai_explanation (ind : Indicators) (_score : ℚ) : String :=
  if 3 ≤ active_count ind then expl_ai_combined
  else if ind.high_stability then expl_ai_stability
  else if ind.low_flatness then expl_ai_spectral
  else if ind.low_micro_var then expl_ai_smooth
  else if ind.low_frame_var then expl_ai_consistent
  else expl_ai_combined

/-- generate_human_explanation. -/
def generate_human_explanation (ind : Indicators) (_score : ℚ) : String :=
  if active_count ind = 0 then expl_human_natural
  else if !ind.high_stability then expl_human_unstable
  else expl_human_variation

/-- The tail of classify_voice after feature extraction: the three-band
decision rule on the AI score, applied to a feature vector. -/
def classifyFeatures (f : AudioFeatures) : ClassificationResult :=
  let ai_score := (calculate_ai_probability f).1
  let indicators := (calculate_ai_probability f).2
  if 55/100 ≤ ai_score then
    { classification := "AI_GENERATED"
      confidenceScore := round2 (min (99/100) (1/2 + (ai_score - 1/2) * (98/100)))
      explanation := generate_ai_explanation indicators ai_score }
  else if ai_score ≤ 45/100 then
    { classification := "HUMAN"
      confidenceScore := round2 (min (99/100) (1/2 + (1/2 - ai_score) * (98/100)))
      explanation := generate_human_explanation indicators ai_score }
  else
    { classification := if 1/2 < ai_score then "AI_GENERATED" else "HUMAN"
      confidenceScore := round2 (1/2 + |ai_score - 1/2| * (1/2))
      explanation := expl_uncertain }

/-! Section: Audio processor (audio_processor.py) -/

/-- The ID3v2 size field as the running code actually computes it: every
term is a numpy uint8 scalar operation, so each shifted term is reduced
mod 256 before the bitwise ors.  The two terms shifted by 21 and 14 always
vanish, and the term shifted by 7 keeps only the lowest bit of its byte. -/
def id3_size (b6 b7 b8 b9 : Nat) : Nat :=
  ((((b6 &&& 127) <<< 21) % 256) ||| (((b7 &&& 127) <<< 14) % 256)) |||
    ((((b8 &&& 127) <<< 7) % 256) ||| (b9 &&& 127))

/-- Number of leading bytes parse_mp3_to_samples skips when an ID3v2
header (bytes 0x49 0x44 0x33) is detected and at least 10 bytes are
available, and 0 otherwise.  The source computes offset = 10 + size where
size is a numpy uint8 scalar and the Python int 10 fits in uint8, so the
addition itself is a uint8 operation and wraps mod 256 (a truncated size
of 246 or more makes the offset 0..9). -/
def id3_offset (audioBytes : List Nat) : Nat :=
  if 3 ≤ audioBytes.length ∧ audioBytes.getD 0 0 = 73 ∧
      audioBytes.getD 1 0 = 68 ∧ audioBytes.getD 2 0 = 51 then
    if 10 ≤ audioBytes.length then
      (10 + id3_size (audioBytes.getD 6 0) (audioBytes.getD 7 0)
        (audioBytes.getD 8 0) (audioBytes.getD 9 0)) % 256
    else 0
  else 0

/-- parse_mp3_to_samples: skip the detected ID3 header, then map each byte
b to the normalized sample (b - 128) / 128. -/
def parse_mp3_to_samples (audioBytes : List Nat) : List ℚ :=
  (audioBytes.drop (id3_offset audioBytes)).map
    (fun (b : ℕ) => ((b : ℚ) - 128) / 128)

/-- get_default_features: the fixed default feature vector for short or
unusable audio. -/
def get_default_features : AudioFeatures where
  zero_crossing_rate := 1/10
  amplitude_variance := 1/10
  spectral_centroid := 3/10
  spectral_flatness := 1/2
  spectral_rolloff := 1/2
  frame_variation := 1/2
  pitch_stability := 1/2
  micro_variation := 1/2

/-- extract_audio_features: inputs shorter than 1000 bytes, or yielding
fewer than 500 samples, get the default feature vector; otherwise the
spectral/temporal features are computed from the sample sequence.  That
numeric computation (FFT, log/exp, tanh, autocorrelation) is floating
point and is abstracted as the compute_features parameter. -/
def extract_audio_features (compute_features : List ℚ → AudioFeatures)
    (audioBytes : List Nat) : AudioFeatures :=
  if audioBytes.length < 1000 then get_default_features
  else
    let samples := parse_mp3_to_samples audioBytes
    if samples.length < 500 then get_default_features
    else compute_features samples

/-- classify_voice: extract features from the decoded audio bytes, then
apply the scoring and the three-band decision rule.  The base64 decoding
step (Python base64.b64decode) precedes this and either yields the byte
list or raises; the language argument is not used by the classification. -/
def classify_voice (compute_features : List ℚ → AudioFeatures)
    (audioBytes : List Nat) (_language : String) : ClassificationResult :=
  classifyFeatures (extract_audio_features compute_features audioBytes)

/-! Section: Request handler (api/voice-detection.py) -/

/-- validate_api_key from lib/auth.py: falsy (missing or empty) keys are
rejected, otherwise exact string comparison against the configured key. -/
def validate_api_key (validKey : String) (apiKey : Option String) : Bool :=
  match apiKey with
  | none => false
  | some k => !(k = "") && (k = validKey)

/-- Python truthiness of an optional string field of the parsed JSON body. -/
def field_truthy : Option String → Bool
  | none => false
  | some s => !(s = "")

/-- VoiceDetectionRequest.validate_base64 from lib/models.py: the intended
pydantic validator.  decodeOk abstracts base64.b64decode succeeding.  No
handler in the repository ever constructs a VoiceDetectionRequest, so this
validator is dead code. -/
def VoiceDetectionRequest_validate_base64 (decodeOk : String → Bool)
    (v : String) : Except String String :=
  if decodeOk v then Except.ok v else Except.error ("Invalid Base64 encoding")

/-- handler.do_POST of api/voice-detection.py, as (status code, message):
auth check, JSON body parse, required-field / language / audioFormat
checks, then classify_voice.  classify_voice raises exactly when
base64.b64decode does (decodeOk false); that exception is caught by the
blanket except clause, which produces the generic 500 response.  The
success payload is abbreviated to the message "success". -/
def handler_do_POST (validKey : String) (decodeOk : String → Bool)
    (apiKey : Option String) (bodyIsJson : Bool)
    (language audioFormat audioBase64 : Option String) : Nat × String :=
  if !(validate_api_key validKey apiKey) then
    (401, "Invalid API key or malformed request")
  else if !bodyIsJson then (400, "Invalid JSON body")
  else if !(field_truthy language && field_truthy audioFormat &&
      field_truthy audioBase64) then
    (400, "Missing required fields: language, audioFormat, audioBase64")
  else if !(decide (language.getD ("") ∈
      ["Tamil", "English", "Hindi", "Malayalam", "Telugu"])) then
    (400, "Invalid language. Must be one of: Tamil, English, Hindi, Malayalam, Telugu")
  else if !(audioFormat.getD ("") = "mp3") then
    (400, "audioFormat must be mp3")
  else if decodeOk (audioBase64.getD ("")) then (200, "success")
  else (500, "Internal server error")

/-! Section: Specification-side definitions (for refinement statements) -/

namespace Spec

/-- Decision rule as the specification words it: score at least 0.55 is
AI_GENERATED with confidence min(0.99, 0.5 + (score - 0.5) * 0.98); score
at most 0.45 is HUMAN with the symmetric confidence; a score strictly
inside (0.45, 0.55) carries the dedicated ambiguous explanation and
confidence 0.5 + abs(score - 0.5) * 0.5, collapsed into the nearer label
(AI_GENERATED exactly when the score exceeds 0.5).  The stored confidence
is rounded to two decimals. -/
def decision_rule (score : ℚ) (ind : Indicators) : ClassificationResult :=
  if 55/100 ≤ score then
    { classification := "AI_GENERATED"
      confidenceScore := round2 (min (99/100) (1/2 + (score - 1/2) * (98/100)))
      explanation := generate_ai_explanation ind score }
  else if score ≤ 45/100 then
    { classification := "HUMAN"
      confidenceScore := round2 (min (99/100) (1/2 + (1/2 - score) * (98/100)))
      explanation := generate_human_explanation ind score }
  else
    { classification := if 1/2 < score then "AI_GENERATED" else "HUMAN"
      confidenceScore := round2 (1/2 + |score - 1/2| * (1/2))
      explanation := expl_uncertain }

/-- AI score as the specification words it: the weighted average of the
five per-signal partial scores with weights 0.25 (flatness), 0.25
(stability), 0.20 (micro-variation), 0.15 (frame variation) and 0.15
(zero-crossing rate, a flat 0.6 below its threshold and 0 otherwise),
adjusted by +0.15 clamped to 1 when at least 3 indicators are active and
by -0.1 clamped to 0 when no indicator is active. -/
def ai_score (f : AudioFeatures) : ℚ :=
  let base :=
    (25/100) * flatness_score f.spectral_flatness +
    (25/100) * stability_score f.pitch_stability +
    (20/100) * micro_score f.micro_variation +
    (15/100) * frame_score f.frame_variation +
    (15/100) * (if f.zero_crossing_rate < zcr_low then 6/10 else 0)
  if 3 ≤ active_count (indicators_of f) then min 1 (base + 15/100)
  else if active_count (indicators_of f) = 0 then max 0 (base - 1/10)
  else base

/-- ID3v2 size field as the specification and the claim describe it: the
4-byte big-endian 7-bits-per-byte (syncsafe) integer at offsets 6 to 9. -/
def id3_syncsafe_size (b6 b7 b8 b9 : Nat) : Nat :=
  ((b6 &&& 127) <<< 21) ||| ((b7 &&& 127) <<< 14) |||
    ((b8 &&& 127) <<< 7) ||| (b9 &&& 127)

end Spec

/-! Section: Concrete inputs used in closed statements -/

/-- Trivial instantiation of the abstracted floating-point feature
computation, used when a statement must be applied to a concrete input that
never reaches it. -/
def compute_features0 : List ℚ → AudioFeatures := fun _ => get_default_features

/-- A 12-byte input whose ID3v2 header declares the syncsafe size 256
(offsets 6..9 are 0, 0, 2, 0), followed by the two payload bytes 200, 100. -/
def c6_bytes : List Nat := [73, 68, 51, 4, 0, 0, 0, 0, 2, 0, 200, 100]

/-- A feature vector whose AI score is exactly 1/2: flatness 0 and
stability 1 each contribute a clamped partial score of 1 with weight 0.25,
the other three signals contribute 0, and exactly two indicators are
active, so no adjustment applies. -/
def c10_features : AudioFeatures where
  zero_crossing_rate := 1/10
  amplitude_variance := 0
  spectral_centroid := 0
  spectral_flatness := 0
  spectral_rolloff := 0
  frame_variation := 1/2
  pitch_stability := 1
  micro_variation := 1

/-! Section: Helper lemmas -/

theorem flatness_score_nonneg (x : ℚ) : 0 ≤ flatness_score x := by
  unfold flatness_score spectral_flatness_low
  split_ifs with h
  · refine le_min (by norm_num) ?_
    have hd : x / (15/100) < 1 := by rw [div_lt_one (by norm_num)]; linarith
    linarith
  · exact le_max_left 0 _

theorem flatness_score_le_one (x : ℚ) : flatness_score x ≤ 1 := by
  unfold flatness_score spectral_flatness_low
  split_ifs with h
  · exact min_le_left _ _
  · push_neg at h
    exact max_le (by norm_num) (by linarith)

theorem stability_score_nonneg (x : ℚ) : 0 ≤ stability_score x := by
  unfold stability_score pitch_stability_high
  split_ifs with h
  · exact le_min (by norm_num) (div_nonneg (by linarith) (by norm_num))
  · exact le_refl 0

theorem stability_score_le_one (x : ℚ) : stability_score x ≤ 1 := by
  unfold stability_score pitch_stability_high
  split_ifs with h
  · exact min_le_left _ _
  · norm_num

theorem micro_score_nonneg (x : ℚ) : 0 ≤ micro_score x := by
  unfold micro_score micro_variation_low
  split_ifs with h
  · refine le_min (by norm_num) ?_
    have hd : x / (3/10) < 1 := by rw [div_lt_one (by norm_num)]; linarith
    linarith
  · exact le_max_left 0 _

theorem micro_score_le_one (x : ℚ) : micro_score x ≤ 1 := by
  unfold micro_score micro_variation_low
  split_ifs with h
  · exact min_le_left _ _
  · push_neg at h
    exact max_le (by norm_num) (by linarith)

theorem frame_score_nonneg (x : ℚ) : 0 ≤ frame_score x := by
  unfold frame_score frame_variation_low
  split_ifs with h
  · refine le_min (by norm_num) ?_
    have hd : x / (15/100) < 1 := by rw [div_lt_one (by norm_num)]; linarith
    linarith
  · exact le_refl 0

theorem frame_score_le_one (x : ℚ) : frame_score x ≤ 1 := by
  unfold frame_score frame_variation_low
  split_ifs with h
  · exact min_le_left _ _
  · norm_num

theorem zcr_score_nonneg (x : ℚ) : 0 ≤ zcr_score x := by
  unfold zcr_score
  split_ifs <;> norm_num

theorem zcr_score_le_one (x : ℚ) : zcr_score x ≤ 1 := by
  unfold zcr_score
  split_ifs <;> norm_num

theorem weighted_score_nonneg (f : AudioFeatures) : 0 ≤ weighted_score f := by
  have h1 := flatness_score_nonneg f.spectral_flatness
  have h2 := stability_score_nonneg f.pitch_stability
  have h3 := micro_score_nonneg f.micro_variation
  have h4 := frame_score_nonneg f.frame_variation
  have h5 := zcr_score_nonneg f.zero_crossing_rate
  unfold weighted_score
  have ht : (25:ℚ)/100 + 25/100 + 20/100 + 15/100 + 15/100 = 1 := by norm_num
  rw [ht, div_one]
  linarith

theorem weighted_score_le_one (f : AudioFeatures) : weighted_score f ≤ 1 := by
  have h1 := flatness_score_le_one f.spectral_flatness
  have h2 := stability_score_le_one f.pitch_stability
  have h3 := micro_score_le_one f.micro_variation
  have h4 := frame_score_le_one f.frame_variation
  have h5 := zcr_score_le_one f.zero_crossing_rate
  unfold weighted_score
  have ht : (25:ℚ)/100 + 25/100 + 20/100 + 15/100 + 15/100 = 1 := by norm_num
  rw [ht, div_one]
  linarith

theorem ai_score_nonneg (f : AudioFeatures) :
    0 ≤ (calculate_ai_probability f).1 := by
  have h0 := weighted_score_nonneg f
  unfold calculate_ai_probability
  dsimp only
  split_ifs
  · exact le_min (by norm_num) (by linarith)
  · exact le_max_left 0 _
  · exact h0

theorem ai_score_le_one (f : AudioFeatures) :
    (calculate_ai_probability f).1 ≤ 1 := by
  have h0 := weighted_score_le_one f
  unfold calculate_ai_probability
  dsimp only
  split_ifs
  · exact min_le_left _ _
  · exact max_le (by norm_num) (by linarith)
  · exact h0

theorem round_half_even_ge (n : ℤ) (q : ℚ) (h : (n : ℚ) ≤ q) :
    n ≤ round_half_even q := by
  have hf : n ≤ ⌊q⌋ := Int.le_floor.mpr h
  unfold round_half_even
  split_ifs <;> omega

theorem round_half_even_le (n : ℤ) (q : ℚ) (h : q ≤ (n : ℚ)) :
    round_half_even q ≤ n := by
  have hfq : (⌊q⌋ : ℚ) ≤ q := Int.floor_le q
  have hfn : ⌊q⌋ ≤ n := by exact_mod_cast hfq.trans h
  unfold round_half_even
  split_ifs with h1 h2 h3
  · exact hfn
  · have hlt : ⌊q⌋ < n := by
      by_contra hc
      push_neg at hc
      have : (n : ℚ) ≤ (⌊q⌋ : ℚ) := by exact_mod_cast hc
      linarith
    omega
  · exact hfn
  · have heq : q - ⌊q⌋ = 1/2 := le_antisymm (not_lt.mp h2) (not_lt.mp h1)
    have hlt : ⌊q⌋ < n := by
      by_contra hc
      push_neg at hc
      have : (n : ℚ) ≤ (⌊q⌋ : ℚ) := by exact_mod_cast hc
      linarith
    omega

theorem round2_mem {q : ℚ} (h1 : 1/2 ≤ q) (h2 : q ≤ 99/100) :
    1/2 ≤ round2 q ∧ round2 q ≤ 99/100 := by
  have g1 : (50 : ℤ) ≤ round_half_even (q * 100) := by
    refine round_half_even_ge 50 _ ?_
    push_cast
    linarith
  have g2 : round_half_even (q * 100) ≤ (99 : ℤ) := by
    refine round_half_even_le 99 _ ?_
    push_cast
    linarith
  have c1 : (50 : ℚ) ≤ (round_half_even (q * 100) : ℚ) := by exact_mod_cast g1
  have c2 : ((round_half_even (q * 100)) : ℚ) ≤ 99 := by exact_mod_cast g2
  unfold round2
  constructor <;> [linarith; linarith]

theorem classifyFeatures_valid (f : AudioFeatures) :
    ((classifyFeatures f).classification = "AI_GENERATED" ∨
      (classifyFeatures f).classification = "HUMAN") ∧
    1/2 ≤ (classifyFeatures f).confidenceScore ∧
    (classifyFeatures f).confidenceScore ≤ 99/100 := by
  have hs1 := ai_score_le_one f
  simp only [classifyFeatures]
  split_ifs with h1 h2 h3
  · refine ⟨Or.inl rfl, ?_⟩
    refine round2_mem ?_ (min_le_left _ _)
    refine le_min (by norm_num) ?_
    linarith
  · refine ⟨Or.inr rfl, ?_⟩
    refine round2_mem ?_ (min_le_left _ _)
    refine le_min (by norm_num) ?_
    linarith
  · push_neg at h1 h2
    refine ⟨Or.inl rfl, ?_⟩
    have ha : |(calculate_ai_probability f).1 - 1/2| < 1/20 :=
      abs_lt.mpr ⟨by linarith, by linarith⟩
    have hb : 0 ≤ |(calculate_ai_probability f).1 - 1/2| := abs_nonneg _
    exact round2_mem (by linarith) (by linarith)
  · push_neg at h1 h2
    refine ⟨Or.inr rfl, ?_⟩
    have ha : |(calculate_ai_probability f).1 - 1/2| < 1/20 :=
      abs_lt.mpr ⟨by linarith, by linarith⟩
    have hb : 0 ≤ |(calculate_ai_probability f).1 - 1/2| := abs_nonneg _
    exact round2_mem (by linarith) (by linarith)

theorem default_features_score :
    (calculate_ai_probability get_default_features).1 = 0 := by
  norm_num [calculate_ai_probability, indicators_of, active_count,
    weighted_score, flatness_score, stability_score, micro_score,
    frame_score, zcr_score, spectral_flatness_low, pitch_stability_high,
    micro_variation_low, frame_variation_low, zcr_low, get_default_features]

theorem default_features_active :
    active_count (calculate_ai_probability get_default_features).2 = 0 := by
  norm_num [calculate_ai_probability, indicators_of, active_count,
    spectral_flatness_low, pitch_stability_high, micro_variation_low,
    frame_variation_low, zcr_low, get_default_features]

theorem default_features_classify :
    classifyFeatures get_default_features =
      { classification := "HUMAN", confidenceScore := 99/100,
        explanation := expl_human_natural } := by
  simp only [classifyFeatures, default_features_score,
    generate_human_explanation, default_features_active]
  norm_num [round2, round_half_even]

/-! Section: Claims -/

/-- Claim C1: for every feature vector, classify_voice applies the biased
three-band decision rule on the AI score: a score of at least 0.55 yields
AI_GENERATED with confidence min(0.99, 0.5 + (score - 0.5) * 0.98); a score
of at most 0.45 yields HUMAN with the symmetric confidence; a score
strictly inside (0.45, 0.55) carries the dedicated ambiguous explanation
and confidence 0.5 + abs(score - 0.5) * 0.5, collapsed into the nearer of
the two labels (AI_GENERATED exactly when the score exceeds 0.5).  The
stored confidenceScore is the rounded confidence. -/
theorem claim_C1_decision_rule (f : AudioFeatures) :
    classifyFeatures f =
      Spec.decision_rule (calculate_ai_probability f).1
        (calculate_ai_probability f).2 := rfl

/-- Claim C2: for every decodable input (any byte list, any language, any
instantiation of the floating-point feature computation), classify_voice
returns a result whose classification is AI_GENERATED or HUMAN and whose
rounded confidenceScore lies in the interval from 0.5 to 0.99.  Totality
of the Lean function gives termination. -/
theorem claim_C2_output_valid (compute_features : List ℚ → AudioFeatures)
    (audioBytes : List Nat) (language : String) :
    ((classify_voice compute_features audioBytes language).classification =
        "AI_GENERATED" ∨
      (classify_voice compute_features audioBytes language).classification =
        "HUMAN") ∧
    1/2 ≤ (classify_voice compute_features audioBytes language).confidenceScore ∧
    (classify_voice compute_features audioBytes language).confidenceScore ≤
      99/100 :=
  classifyFeatures_valid _

/-- Claim C3: for every feature vector, calculate_ai_probability returns an
AI score in the unit interval, equal to the weighted average of the five
per-signal partial scores with weights 0.25 (flatness), 0.25 (stability),
0.20 (micro-variation), 0.15 (frame variation), 0.15 (zero-crossing rate,
contributing a flat 0.6 below its threshold and 0 otherwise), adjusted by
+0.15 clamped to 1 when at least 3 indicators are active and by -0.1
clamped to 0 when no indicator is active. -/
theorem claim_C3_score_range_and_formula (f : AudioFeatures) :
    0 ≤ (calculate_ai_probability f).1 ∧ (calculate_ai_probability f).1 ≤ 1 ∧
    (calculate_ai_probability f).1 = Spec.ai_score f := by
  refine ⟨ai_score_nonneg f, ai_score_le_one f, ?_⟩
  unfold calculate_ai_probability Spec.ai_score weighted_score zcr_score
  dsimp only
  have ht : (25:ℚ)/100 + 25/100 + 20/100 + 15/100 + 15/100 = 1 := by norm_num
  rw [ht, div_one]
  split_ifs <;> ring_nf

/-- Claim C7: every indicator threshold comparison in
calculate_ai_probability is strict: a feature exactly at its threshold does
not set the indicator (so a value equal to the threshold takes the
non-crossing branch of its partial score, as the five closing equations
evaluate), while a value strictly past the threshold on the AI-suggestive
side does set it. -/
theorem claim_C7_strict_thresholds (f : AudioFeatures) :
    ((calculate_ai_probability f).2.low_flatness = true ↔
      f.spectral_flatness < spectral_flatness_low) ∧
    ((calculate_ai_probability f).2.high_stability = true ↔
      pitch_stability_high < f.pitch_stability) ∧
    ((calculate_ai_probability f).2.low_micro_var = true ↔
      f.micro_variation < micro_variation_low) ∧
    ((calculate_ai_probability f).2.low_frame_var = true ↔
      f.frame_variation < frame_variation_low) ∧
    ((calculate_ai_probability f).2.low_zcr = true ↔
      f.zero_crossing_rate < zcr_low) ∧
    flatness_score spectral_flatness_low = 51/200 ∧
    stability_score pitch_stability_high = 0 ∧
    micro_score micro_variation_low = 21/100 ∧
    frame_score frame_variation_low = 0 ∧
    zcr_score zcr_low = 0 := by
  refine ⟨?_, ?_, ?_, ?_, ?_, ?_, ?_, ?_, ?_, ?_⟩
  · simp [calculate_ai_probability, indicators_of]
  · simp [calculate_ai_probability, indicators_of]
  · simp [calculate_ai_probability, indicators_of]
  · simp [calculate_ai_probability, indicators_of]
  · simp [calculate_ai_probability, indicators_of]
  · rw [flatness_score, if_neg (lt_irrefl _), max_eq_right (by norm_num [spectral_flatness_low])]
    norm_num [spectral_flatness_low]
  · rw [stability_score, if_neg (lt_irrefl _)]
  · rw [micro_score, if_neg (lt_irrefl _), max_eq_right (by norm_num [micro_variation_low])]
    norm_num [micro_variation_low]
  · rw [frame_score, if_neg (lt_irrefl _)]
  · rw [zcr_score, if_neg (lt_irrefl _)]

/-- Claim C8: the explanation is selected deterministically from the fixed
message catalog: the uncertain band yields the ambiguous message; the AI
branch yields the combined message when at least three indicators are
active (the source's reading of several firing together), otherwise the
specific message of the dominant indicator in priority order stability,
flatness, micro-variation, frame-variation, falling back to the combined
message; the human branch yields the natural message when no indicator is
active, otherwise the instability or variation message.  The explanation
is always a member of the catalog. -/
theorem claim_C8_explanation_selection (f : AudioFeatures) :
    (classifyFeatures f).explanation =
      (if 45/100 < (calculate_ai_probability f).1 ∧
          (calculate_ai_probability f).1 < 55/100 then expl_uncertain
       else if 55/100 ≤ (calculate_ai_probability f).1 then
         (if 3 ≤ active_count (calculate_ai_probability f).2 then
            expl_ai_combined
          else if (calculate_ai_probability f).2.high_stability then
            expl_ai_stability
          else if (calculate_ai_probability f).2.low_flatness then
            expl_ai_spectral
          else if (calculate_ai_probability f).2.low_micro_var then
            expl_ai_smooth
          else if (calculate_ai_probability f).2.low_frame_var then
            expl_ai_consistent
          else expl_ai_combined)
       else
         (if active_count (calculate_ai_probability f).2 = 0 then
            expl_human_natural
          else if !(calculate_ai_probability f).2.high_stability then
            expl_human_unstable
          else expl_human_variation)) ∧
    (classifyFeatures f).explanation ∈ EXPLANATIONS_catalog := by
  have heq : (classifyFeatures f).explanation =
      (if 45/100 < (calculate_ai_probability f).1 ∧
          (calculate_ai_probability f).1 < 55/100 then expl_uncertain
       else if 55/100 ≤ (calculate_ai_probability f).1 then
         (if 3 ≤ active_count (calculate_ai_probability f).2 then
            expl_ai_combined
          else if (calculate_ai_probability f).2.high_stability then
            expl_ai_stability
          else if (calculate_ai_probability f).2.low_flatness then
            expl_ai_spectral
          else if (calculate_ai_probability f).2.low_micro_var then
            expl_ai_smooth
          else if (calculate_ai_probability f).2.low_frame_var then
            expl_ai_consistent
          else expl_ai_combined)
       else
         (if active_count (calculate_ai_probability f).2 = 0 then
            expl_human_natural
          else if !(calculate_ai_probability f).2.high_stability then
            expl_human_unstable
          else expl_human_variation)) := by
    by_cases h1 : 55/100 ≤ (calculate_ai_probability f).1
    · have hb : ¬(45/100 < (calculate_ai_probability f).1 ∧
          (calculate_ai_probability f).1 < 55/100) :=
        fun hc => absurd h1 (not_le.mpr hc.2)
      rw [if_neg hb, if_pos h1]
      simp only [classifyFeatures]
      rw [if_pos h1]
      rfl
    · by_cases h2 : (calculate_ai_probability f).1 ≤ 45/100
      · have hb : ¬(45/100 < (calculate_ai_probability f).1 ∧
            (calculate_ai_probability f).1 < 55/100) :=
          fun hc => absurd h2 (not_le.mpr hc.1)
        rw [if_neg hb, if_neg h1]
        simp only [classifyFeatures]
        rw [if_neg h1, if_pos h2]
        rfl
      · push_neg at h1 h2
        rw [if_pos ⟨h2, h1⟩]
        simp only [classifyFeatures]
        rw [if_neg (not_le.mpr h1), if_neg (not_le.mpr h2)]
  refine ⟨heq, ?_⟩
  rw [heq]
  split_ifs <;> simp [EXPLANATIONS_catalog]

/-- Claim C10: inside the uncertain band the tie-break is asymmetric: an AI
score exactly equal to 0.5 is classified HUMAN, with confidence exactly 0.5
and the uncertain explanation. -/
theorem claim_C10_half_tie (f : AudioFeatures)
    (h : (calculate_ai_probability f).1 = 1/2) :
    (classifyFeatures f).classification = "HUMAN" ∧
    (classifyFeatures f).confidenceScore = 1/2 ∧
    (classifyFeatures f).explanation = expl_uncertain := by
  simp only [classifyFeatures, h]
  rw [if_neg (by norm_num), if_neg (by norm_num)]
  norm_num [round2, round_half_even]

/-- Witness for claim C10 at the concrete feature vector c10_features. -/
theorem claim_C10_half_tie_witness :
    (calculate_ai_probability c10_features).1 = 1/2 ∧
    ((classifyFeatures c10_features).classification = "HUMAN" ∧
     (classifyFeatures c10_features).confidenceScore = 1/2 ∧
     (classifyFeatures c10_features).explanation = expl_uncertain) := by
  have h : (calculate_ai_probability c10_features).1 = 1/2 := by
    norm_num [calculate_ai_probability, indicators_of, active_count,
      weighted_score, flatness_score, stability_score, micro_score,
      frame_score, zcr_score, spectral_flatness_low, pitch_stability_high,
      micro_variation_low, frame_variation_low, zcr_low, c10_features]
  exact ⟨h, claim_C10_half_tie c10_features h⟩

/-- Claim C5: every input below the 1000-byte minimum, or yielding fewer
than 500 samples, gets the fixed default feature vector (flatness 0.5,
stability 0.5, micro-variation 0.5, frame variation 0.5, zero-crossing
rate 0.1) without failing, and that default vector deterministically has
AI score 0 and classifies as HUMAN with confidenceScore 0.99. -/
theorem claim_C5_short_input_default
    (compute_features : List ℚ → AudioFeatures) (audioBytes : List Nat)
    (h : audioBytes.length < 1000 ∨
      (parse_mp3_to_samples audioBytes).length < 500) :
    extract_audio_features compute_features audioBytes = get_default_features ∧
    get_default_features.spectral_flatness = 1/2 ∧
    get_default_features.pitch_stability = 1/2 ∧
    get_default_features.micro_variation = 1/2 ∧
    get_default_features.frame_variation = 1/2 ∧
    get_default_features.zero_crossing_rate = 1/10 ∧
    (calculate_ai_probability get_default_features).1 = 0 ∧
    classifyFeatures get_default_features =
      { classification := "HUMAN", confidenceScore := 99/100,
        explanation := expl_human_natural } := by
  refine ⟨?_, rfl, rfl, rfl, rfl, rfl, default_features_score,
    default_features_classify⟩
  simp only [extract_audio_features]
  split_ifs with h1 h2
  · rfl
  · rfl
  · rcases h with h | h
    · exact absurd h h1
    · exact absurd h h2

/-- Witness for claim C5 at the empty byte list. -/
theorem claim_C5_short_input_default_witness :
    (([] : List Nat).length < 1000 ∨
      (parse_mp3_to_samples []).length < 500) ∧
    (extract_audio_features compute_features0 [] = get_default_features ∧
     get_default_features.spectral_flatness = 1/2 ∧
     get_default_features.pitch_stability = 1/2 ∧
     get_default_features.micro_variation = 1/2 ∧
     get_default_features.frame_variation = 1/2 ∧
     get_default_features.zero_crossing_rate = 1/10 ∧
     (calculate_ai_probability get_default_features).1 = 0 ∧
     classifyFeatures get_default_features =
       { classification := "HUMAN", confidenceScore := 99/100,
         explanation := expl_human_natural }) :=
  ⟨Or.inl (by decide),
   claim_C5_short_input_default compute_features0 [] (Or.inl (by decide))⟩

/-- Claim C4 evaluation: an authenticated, otherwise valid POST whose
audioBase64 does not decode (modelled by decodeOk constantly false, as for
the input not-base64-!!) reaches classify_voice, whose decode exception is
caught by the blanket handler: the endpoint answers 500 Internal server
error, not the 400 Invalid Base64 encoding that the unused pydantic
validator would produce. -/
theorem claim_C4_invalid_base64_gives_500 :
    handler_do_POST ("sk_test_123456789") (fun _ => false)
        (some ("sk_test_123456789")) true (some ("English")) (some ("mp3"))
        (some ("not-base64-!!")) = (500, "Internal server error") ∧
    VoiceDetectionRequest_validate_base64 (fun _ => false) ("not-base64-!!") =
      Except.error ("Invalid Base64 encoding") := by
  exact ⟨by decide, rfl⟩

/-- Claim C6 evaluation: on the 12-byte input c6_bytes, whose ID3v2 header
declares the syncsafe size 256 (so the claimed skip 10 + 256 covers the
whole input), the code computes the size in numpy uint8 arithmetic, where
it truncates to 0: only 10 bytes are skipped and the two payload bytes
survive as samples 9/16 and -7/32 instead of the empty sample array. -/
theorem claim_C6_id3_size_truncated :
    parse_mp3_to_samples c6_bytes = [9/16, -7/32] ∧
    id3_offset c6_bytes = 10 ∧
    Spec.id3_syncsafe_size 0 0 2 0 = 256 ∧
    c6_bytes.length ≤ 10 + Spec.id3_syncsafe_size 0 0 2 0 := by
  refine ⟨?_, by decide, by decide, by decide⟩
  have h : id3_offset c6_bytes = 10 := by decide
  rw [parse_mp3_to_samples, h]
  norm_num [c6_bytes]

end Fraud
